import Mathlib

/-!
Verification development for the Sonoma Labs toolkit client SDK
(`src/js/src/core/Agent.ts`, `src/js/src/core/Connection.ts`,
`src/js/src/types/index.ts`, `src/js/src/types/config.ts`).

The TypeScript `Agent` class is embedded shallowly: each method becomes a
pure Lean function over an explicit `AgentAccount` value plus a `ProgramEnv`
record supplying the outcomes of the network-facing `Program` primitives.
Every method returns an `OpResult` carrying the thrown/returned value, the
account field after the call, the `EventEmitter` notifications emitted (in
emission order) and the network calls performed (in order).
-/

namespace Sonoma

/-- Lifecycle states, from `AgentState` in `src/js/src/types/index.ts`. -/
inductive AgentState where
  | uninitialized
  | initialized
  | running
  | paused
  | error
  | terminated
deriving DecidableEq, Repr

/-- Agent configuration, from `AgentConfig` in `src/js/src/types/index.ts`.
Numbers are JS numbers used as integers; the optional open-ended `metadata`
record is embedded as an association list. -/
structure AgentConfig where
  autonomousMode : Bool
  executionLimit : Int
  memoryLimit : Int
  capabilities : List String
  metadata : List (String × String)
deriving DecidableEq, Repr

/-- Performance counters, from `PerformanceMetrics` in
`src/js/src/types/index.ts`. -/
structure PerformanceMetrics where
  totalExecutions : Nat
  successfulExecutions : Nat
  failedExecutions : Nat
  averageExecutionTime : Nat
  totalComputeUnits : Nat
deriving DecidableEq, Repr

/-- Account metadata, from `AgentMetadata` in `src/js/src/types/index.ts`. -/
structure AgentMetadata where
  createdAt : Nat
  updatedAt : Nat
  version : String
  performanceMetrics : PerformanceMetrics
deriving DecidableEq, Repr

/-- The authoritative account snapshot, from `AgentAccount` in
`src/js/src/types/index.ts`. Public keys are embedded as naturals. -/
structure AgentAccount where
  publicKey : Nat
  authority : Nat
  name : String
  config : AgentConfig
  state : AgentState
  lastExecution : Nat
  executionCount : Nat
  metadata : AgentMetadata
deriving DecidableEq, Repr

/-- Errors. `sonoma message cause` embeds `new SonomaError(message, \x7b cause \x7d)`
from `src/errors` (the class itself is not under src/; per its uses it carries a
message and an optional cause), and `sonomaNoCause message` embeds a
`SonomaError` thrown without a cause, as the pause/resume guards do.
`invalidParameters`, `notFound` and `network` are the spec's failure classes
for errors produced below the Agent layer (Command Builder validation,
missing account, transport). -/
inductive SdkError where
  | invalidParameters
  | notFound
  | network (msg : String)
  | sonoma (message : String) (cause : SdkError)
  | sonomaNoCause (message : String)
deriving DecidableEq, Repr

/-- A built command, from the `AgentInstruction` operation surface in
`src/js/src/types/index.ts`: operation discriminator plus its payload. -/
inductive Instruction where
  | init (pk : Nat) (name : String) (config : AgentConfig)
  | update (pk : Nat) (config : AgentConfig)
  | execute (pk : Nat) (data : List Nat)
  | pause (pk : Nat)
  | resume (pk : Nat)
deriving DecidableEq, Repr

/-- One network interaction of the Agent with the `Program` gateway:
a transaction submission or an account fetch. -/
inductive NetCall where
  | send (instr : Instruction)
  | fetch (pk : Nat)
deriving DecidableEq, Repr

/-- One `EventEmitter` notification, from `AgentEvents` in
`src/js/src/types/index.ts`: `emit('execution', true, data)` becomes
`executionOk data`, `emit('execution', false, err)` becomes
`executionErr err`. -/
inductive AgentEvent where
  | stateChange (oldState newState : AgentState)
  | executionOk (data : List Nat)
  | executionErr (cause : SdkError)
  | error (e : SdkError)
deriving DecidableEq, Repr

/-- Environment supplying the outcomes of the `Program` network primitives
the Agent calls (`Program.ts` is the Network Gateway). `freshAccount` is the
address produced by `program.createAgentAccount()`: keypair generation, a
local operation — the remote account only comes into being when the
initialize command is confirmed. -/
structure ProgramEnv where
  freshAccount : Nat
  sendTransaction : Instruction → Except SdkError Unit
  getAgentAccount : Nat → Except SdkError AgentAccount

instance {ε α : Type} [DecidableEq ε] [DecidableEq α] : DecidableEq (Except ε α)
  | Except.ok a, Except.ok b =>
      if h : a = b then isTrue (by rw [h])
      else isFalse (fun hh => h (Except.ok.inj hh))
  | Except.ok _, Except.error _ => isFalse (fun hh => Except.noConfusion hh)
  | Except.error _, Except.ok _ => isFalse (fun hh => Except.noConfusion hh)
  | Except.error a, Except.error b =>
      if h : a = b then isTrue (by rw [h])
      else isFalse (fun hh => h (Except.error.inj hh))

/-- Result of one Agent method call: the value returned or error thrown, the
`this.account` field afterwards, the events emitted and the network calls
made, both in order. -/
structure OpResult (α : Type) where
  result : Except SdkError α
  account : AgentAccount
  events : List AgentEvent
  calls : List NetCall
deriving DecidableEq, Repr

/-- The field-by-field merge `\x7b ...this.account.config, ...config \x7d` in
`Agent.updateConfig`: a JS `Partial<AgentConfig>` is embedded as one `Option`
per field, and a present field overrides the current value. -/
structure ConfigPatch where
  autonomousMode : Option Bool
  executionLimit : Option Int
  memoryLimit : Option Int
  capabilities : Option (List String)
  metadata : Option (List (String × String))
deriving DecidableEq, Repr

def mergeConfig (c : AgentConfig) (p : ConfigPatch) : AgentConfig where
  autonomousMode := p.autonomousMode.getD c.autonomousMode
  executionLimit := p.executionLimit.getD c.executionLimit
  memoryLimit := p.memoryLimit.getD c.memoryLimit
  capabilities := p.capabilities.getD c.capabilities
  metadata := p.metadata.getD c.metadata

/-- Modelled from the spec: the Command Builder validation. The command
constructors (`Program.createInitializeInstruction` and friends in
`Program.ts`) are not under src/; §4.2 specifies a pure function family that
rejects obviously malformed input with `InvalidParameters` before
constructing a command — empty name on create, negative or zero ceilings —
and collapses duplicate capability tags to a set. -/
def createInitializeInstruction (pk : Nat) (name : String) (config : AgentConfig) :
    Except SdkError Instruction :=
  if name = "" then Except.error SdkError.invalidParameters
  else if config.executionLimit ≤ 0 then Except.error SdkError.invalidParameters
  else if config.memoryLimit ≤ 0 then Except.error SdkError.invalidParameters
  else Except.ok (Instruction.init pk name
    { config with capabilities := config.capabilities.dedup })

/-- `Program.createUpdateInstruction` (Command Builder, pure): packs the full
post-merge configuration into an update command. -/
def createUpdateInstruction (pk : Nat) (config : AgentConfig) : Instruction :=
  Instruction.update pk config

def createExecuteInstruction (pk : Nat) (data : List Nat) : Instruction :=
  Instruction.execute pk data

def createPauseInstruction (pk : Nat) : Instruction :=
  Instruction.pause pk

def createResumeInstruction (pk : Nat) : Instruction :=
  Instruction.resume pk

namespace Agent

/-- `Agent.refresh` (`src/unnamed/part_003` lines 162-173): fetch the
account; on success replace `this.account` and, when the lifecycle state
differs from the old one, emit `stateChange(old, new)` — after the
assignment. On failure wrap the cause and leave the account unchanged. -/
def refresh (env : ProgramEnv) (acc : AgentAccount) : OpResult Unit :=
  match env.getAgentAccount acc.publicKey with
  | Except.error e =>
      ⟨Except.error (SdkError.sonoma "Failed to refresh agent data" e),
        acc, [], [NetCall.fetch acc.publicKey]⟩
  | Except.ok a =>
      ⟨Except.ok (), a,
        if acc.state ≠ a.state then [AgentEvent.stateChange acc.state a.state] else [],
        [NetCall.fetch acc.publicKey]⟩

/-- The private `Agent.sendTransaction` (`src/unnamed/part_003` lines
175-182): submit; on failure emit `error` and rethrow the raw cause. -/
def sendTx (env : ProgramEnv) (instr : Instruction) :
    Except SdkError Unit × List AgentEvent × List NetCall :=
  match env.sendTransaction instr with
  | Except.ok _ => (Except.ok (), [], [NetCall.send instr])
  | Except.error e => (Except.error e, [AgentEvent.error e], [NetCall.send instr])

/-- `Agent.updateConfig` (`src/unnamed/part_003` lines 70-81): build the
update command from the merged configuration, submit it through the private
`sendTransaction`, then `refresh`; any failure is wrapped. -/
def updateConfig (env : ProgramEnv) (acc : AgentAccount) (p : ConfigPatch) :
    OpResult Unit :=
  let instr := createUpdateInstruction acc.publicKey (mergeConfig acc.config p)
  match sendTx env instr with
  | (Except.error e, evs, cs) =>
      ⟨Except.error (SdkError.sonoma "Failed to update agent configuration" e),
        acc, evs, cs⟩
  | (Except.ok _, evs, cs) =>
      let r := refresh env acc
      match r.result with
      | Except.error e =>
          ⟨Except.error (SdkError.sonoma "Failed to update agent configuration" e),
            r.account, evs ++ r.events, cs ++ r.calls⟩
      | Except.ok _ => ⟨Except.ok (), r.account, evs ++ r.events, cs ++ r.calls⟩

/-- `Agent.execute` (`src/unnamed/part_003` lines 86-98): build and submit
the execute command; on success emit `execution(true, data)`, on failure
emit `execution(false, cause)` and throw the wrapped cause. No refresh. -/
def execute (env : ProgramEnv) (acc : AgentAccount) (data : List Nat) :
    OpResult Unit :=
  let instr := createExecuteInstruction acc.publicKey data
  match sendTx env instr with
  | (Except.ok _, evs, cs) =>
      ⟨Except.ok (), acc, evs ++ [AgentEvent.executionOk data], cs⟩
  | (Except.error e, evs, cs) =>
      ⟨Except.error (SdkError.sonoma "Failed to execute agent action" e),
        acc, evs ++ [AgentEvent.executionErr e], cs⟩

/-- `Agent.pause` (`src/unnamed/part_003` lines 103-117): guard that the
current state is `Running` before doing anything else; then submit the
pause command and refresh. -/
def pause (env : ProgramEnv) (acc : AgentAccount) : OpResult Unit :=
  if acc.state ≠ AgentState.running then
    ⟨Except.error (SdkError.sonomaNoCause "Agent must be running to pause"), acc, [], []⟩
  else
    match sendTx env (createPauseInstruction acc.publicKey) with
    | (Except.error e, evs, cs) =>
        ⟨Except.error (SdkError.sonoma "Failed to pause agent" e), acc, evs, cs⟩
    | (Except.ok _, evs, cs) =>
        let r := refresh env acc
        match r.result with
        | Except.error e =>
            ⟨Except.error (SdkError.sonoma "Failed to pause agent" e),
              r.account, evs ++ r.events, cs ++ r.calls⟩
        | Except.ok _ => ⟨Except.ok (), r.account, evs ++ r.events, cs ++ r.calls⟩

/-- `Agent.resume` (`src/unnamed/part_003` lines 122-136): guard that the
current state is `Paused`; then submit the resume command and refresh. -/
def resume (env : ProgramEnv) (acc : AgentAccount) : OpResult Unit :=
  if acc.state ≠ AgentState.paused then
    ⟨Except.error (SdkError.sonomaNoCause "Agent must be paused to resume"), acc, [], []⟩
  else
    match sendTx env (createResumeInstruction acc.publicKey) with
    | (Except.error e, evs, cs) =>
        ⟨Except.error (SdkError.sonoma "Failed to resume agent" e), acc, evs, cs⟩
    | (Except.ok _, evs, cs) =>
        let r := refresh env acc
        match r.result with
        | Except.error e =>
            ⟨Except.error (SdkError.sonoma "Failed to resume agent" e),
              r.account, evs ++ r.events, cs ++ r.calls⟩
        | Except.ok _ => ⟨Except.ok (), r.account, evs ++ r.events, cs ++ r.calls⟩

/-- `Agent.load` (`src/unnamed/part_003` lines 54-65): fetch the account at
the address and wrap it in a handle; any failure — the address having no
backing account included — is wrapped as `SonomaError` with message
"Failed to load agent" and the original cause. -/
def load (env : ProgramEnv) (addr : Nat) :
    Except SdkError AgentAccount × List NetCall :=
  match env.getAgentAccount addr with
  | Except.ok a => (Except.ok a, [NetCall.fetch addr])
  | Except.error e =>
      (Except.error (SdkError.sonoma "Failed to load agent" e), [NetCall.fetch addr])

/-- `Agent.create` (`src/unnamed/part_003` lines 29-49): allocate a fresh
account keypair (local), build the initialize command (the spec-modelled
Command Builder validates here), submit it via `program.sendTransaction`,
fetch the resulting account; any failure is wrapped as "Failed to create
agent" with the cause preserved. -/
def create (env : ProgramEnv) (name : String) (config : AgentConfig) :
    Except SdkError AgentAccount × List NetCall :=
  let pk := env.freshAccount
  match createInitializeInstruction pk name config with
  | Except.error e =>
      (Except.error (SdkError.sonoma "Failed to create agent" e), [])
  | Except.ok instr =>
      match env.sendTransaction instr with
      | Except.error e =>
          (Except.error (SdkError.sonoma "Failed to create agent" e),
            [NetCall.send instr])
      | Except.ok _ =>
          match env.getAgentAccount pk with
          | Except.error e =>
              (Except.error (SdkError.sonoma "Failed to create agent" e),
                [NetCall.send instr, NetCall.fetch pk])
          | Except.ok a => (Except.ok a, [NetCall.send instr, NetCall.fetch pk])

end Agent

/-! ## SDK configuration (`src/js/src/types/config.ts`) -/

/-- `NetworkConfig` from `src/js/src/types/config.ts`; `wsEndpoint` is the
one optional key (absent from `DEFAULT_CONFIG`). Commitment levels are
embedded as strings. -/
structure NetworkConfig where
  endpoint : String
  wsEndpoint : Option String
  commitment : String
  timeout : Nat
  maxRetries : Nat
deriving DecidableEq, Repr

/-- `RetryConfig` from `src/js/src/types/config.ts`. -/
structure RetryConfig where
  maxAttempts : Nat
  baseDelay : Nat
  maxDelay : Nat
  backoffFactor : Nat
deriving DecidableEq, Repr

/-- `PerformanceConfig` from `src/js/src/types/config.ts`. -/
structure PerformanceConfig where
  maxExecutionTime : Nat
  maxComputeUnits : Nat
  successRateThreshold : Nat
deriving DecidableEq, Repr

/-- `AgentDefaultConfig` from `src/js/src/types/config.ts`. -/
structure AgentDefaultConfig where
  executionLimit : Nat
  memoryLimit : Nat
  defaultCapabilities : List String
  retry : RetryConfig
  performance : PerformanceConfig
deriving DecidableEq, Repr

/-- `ProgramConfig` from `src/js/src/types/config.ts`. -/
structure ProgramConfig where
  programId : String
  computeBudget : Nat
  prefetchAccounts : Bool
  batchSize : Nat
deriving DecidableEq, Repr

/-- `LogLevel` from `src/js/src/types/config.ts`. -/
inductive LogLevel where
  | debug
  | info
  | warn
  | error
deriving DecidableEq, Repr

/-- `CacheConfig` from `src/js/src/types/config.ts`. -/
structure CacheConfig where
  enabled : Bool
  ttl : Nat
  maxSize : Nat
deriving DecidableEq, Repr

/-- `GlobalSettings` from `src/js/src/types/config.ts`. -/
structure GlobalSettings where
  logLevel : LogLevel
  debug : Bool
  telemetry : Bool
  cache : CacheConfig
deriving DecidableEq, Repr

/-- `SonomaConfig` from `src/js/src/types/config.ts`. -/
structure SonomaConfig where
  network : NetworkConfig
  agent : AgentDefaultConfig
  program : ProgramConfig
  settings : GlobalSettings
deriving DecidableEq, Repr

/-- A possibly-incomplete `network` section of an input configuration: one
`Option` per key, a present key overriding the default under the JS spread. -/
structure NetworkConfigPatch where
  endpoint : Option String
  wsEndpoint : Option String
  commitment : Option String
  timeout : Option Nat
  maxRetries : Option Nat
deriving DecidableEq, Repr

/-- A possibly-incomplete `agent` section; the nested `retry` and
`performance` objects are single keys of the section and are replaced
wholesale when present, exactly as the one-level spread in `validateConfig`
does. -/
structure AgentDefaultConfigPatch where
  executionLimit : Option Nat
  memoryLimit : Option Nat
  defaultCapabilities : Option (List String)
  retry : Option RetryConfig
  performance : Option PerformanceConfig
deriving DecidableEq, Repr

/-- A possibly-incomplete `program` section. -/
structure ProgramConfigPatch where
  programId : Option String
  computeBudget : Option Nat
  prefetchAccounts : Option Bool
  batchSize : Option Nat
deriving DecidableEq, Repr

/-- A possibly-incomplete `settings` section; `cache` replaced wholesale. -/
structure GlobalSettingsPatch where
  logLevel : Option LogLevel
  debug : Option Bool
  telemetry : Option Bool
  cache : Option CacheConfig
deriving DecidableEq, Repr

/-- A `Partial<SonomaConfig>` input: the four top-level sections, each
possibly incomplete (a wholly absent section is the all-`none` patch). -/
structure SonomaConfigPatch where
  network : NetworkConfigPatch
  agent : AgentDefaultConfigPatch
  program : ProgramConfigPatch
  settings : GlobalSettingsPatch
deriving DecidableEq, Repr

/-- `DEFAULT_CONFIG` from `src/js/src/types/config.ts` lines 152-191. -/
def DEFAULT_CONFIG : SonomaConfig where
  network :=
    { endpoint := "https://api.mainnet-beta.solana.com"
      wsEndpoint := none
      commitment := "confirmed"
      timeout := 30000
      maxRetries := 3 }
  agent :=
    { executionLimit := 1000
      memoryLimit := 10485760
      defaultCapabilities := ["compute", "storage"]
      retry := { maxAttempts := 3, baseDelay := 1000, maxDelay := 10000, backoffFactor := 2 }
      performance := { maxExecutionTime := 5000, maxComputeUnits := 200000, successRateThreshold := 95 } }
  program :=
    { programId := ""
      computeBudget := 200000
      prefetchAccounts := true
      batchSize := 100 }
  settings :=
    { logLevel := LogLevel.info
      debug := false
      telemetry := true
      cache := { enabled := true, ttl := 300000, maxSize := 1000 } }

/-- The spread `\x7b ...DEFAULT_CONFIG.network, ...config.network \x7d`. -/
def mergeNetwork (d : NetworkConfig) (p : NetworkConfigPatch) : NetworkConfig where
  endpoint := p.endpoint.getD d.endpoint
  wsEndpoint := p.wsEndpoint.orElse fun _ => d.wsEndpoint
  commitment := p.commitment.getD d.commitment
  timeout := p.timeout.getD d.timeout
  maxRetries := p.maxRetries.getD d.maxRetries

/-- The spread `\x7b ...DEFAULT_CONFIG.agent, ...config.agent \x7d`. -/
def mergeAgent (d : AgentDefaultConfig) (p : AgentDefaultConfigPatch) : AgentDefaultConfig where
  executionLimit := p.executionLimit.getD d.executionLimit
  memoryLimit := p.memoryLimit.getD d.memoryLimit
  defaultCapabilities := p.defaultCapabilities.getD d.defaultCapabilities
  retry := p.retry.getD d.retry
  performance := p.performance.getD d.performance

/-- The spread `\x7b ...DEFAULT_CONFIG.program, ...config.program \x7d`. -/
def mergeProgram (d : ProgramConfig) (p : ProgramConfigPatch) : ProgramConfig where
  programId := p.programId.getD d.programId
  computeBudget := p.computeBudget.getD d.computeBudget
  prefetchAccounts := p.prefetchAccounts.getD d.prefetchAccounts
  batchSize := p.batchSize.getD d.batchSize

/-- The spread `\x7b ...DEFAULT_CONFIG.settings, ...config.settings \x7d`. -/
def mergeSettings (d : GlobalSettings) (p : GlobalSettingsPatch) : GlobalSettings where
  logLevel := p.logLevel.getD d.logLevel
  debug := p.debug.getD d.debug
  telemetry := p.telemetry.getD d.telemetry
  cache := p.cache.getD d.cache

/-- `validateConfig` from `src/js/src/types/config.ts` lines 196-217: the
top-level spread `\x7b ...DEFAULT_CONFIG, ...config \x7d` is wholly overwritten by
the four per-section spreads that follow it, so the function is exactly the
four section merges over `DEFAULT_CONFIG`. -/
def validateConfig (p : SonomaConfigPatch) : SonomaConfig where
  network := mergeNetwork DEFAULT_CONFIG.network p.network
  agent := mergeAgent DEFAULT_CONFIG.agent p.agent
  program := mergeProgram DEFAULT_CONFIG.program p.program
  settings := mergeSettings DEFAULT_CONFIG.settings p.settings

/-- The all-absent input configuration. -/
def emptyPatch : SonomaConfigPatch where
  network := ⟨none, none, none, none, none⟩
  agent := ⟨none, none, none, none, none⟩
  program := ⟨none, none, none, none⟩
  settings := ⟨none, none, none, none⟩

/-! ## Retry Executor -/

/-- `RetryPolicy` (§3 of the spec, `RetryConfig` in `src/js/src/types/config.ts`):
maximum attempt count, base delay, maximum delay, backoff multiplier. -/
structure RetryPolicy where
  maxAttempts : Nat
  baseDelay : Nat
  maxDelay : Nat
  backoffFactor : Nat
deriving DecidableEq, Repr

/-- Modelled from the spec: the sleep before retrying after failed attempt
`attemptIndex`, `min(maxDelay, baseDelay * backoffFactor^(attemptIndex-1))`
(§4.4); the Retry Executor itself (`retry` in `src/js/src/utils/helpers.ts`)
is not under src/. -/
def backoffDelay (p : RetryPolicy) (attemptIndex : Nat) : Nat :=
  min p.maxDelay (p.baseDelay * p.backoffFactor ^ (attemptIndex - 1))

/-- Modelled from the spec: the attempt loop of the Retry Executor (`retry`
in `src/js/src/utils/helpers.ts`, not under src/). `op i` is the outcome of
attempt number `i`; `retryFrom op i remaining` runs attempt `i` and then up
to `remaining` further attempts, returning the final outcome together with
the number of attempts actually performed. On exhausting attempts the last
failure is propagated wrapped with the attempt count. -/
def retryFrom {E A : Type} (op : Nat → Except E A) :
    Nat → Nat → Except (E × Nat) A × Nat
  | i, remaining =>
    match op i with
    | Except.ok a => (Except.ok a, 1)
    | Except.error e =>
      match remaining with
      | 0 => (Except.error (e, i), 1)
      | r + 1 =>
        let x := retryFrom op (i + 1) r
        (x.1, x.2 + 1)

/-- Modelled from the spec: the Retry Executor entry point — attempts are
numbered `1, 2, ...` and at most `policy.maxAttempts` are performed. -/
def retry {E A : Type} (op : Nat → Except E A) (policy : RetryPolicy) :
    Except (E × Nat) A × Nat :=
  retryFrom op 1 (policy.maxAttempts - 1)

/-! ## Concrete fixtures used by witnesses and counterexamples -/

def cfgW : AgentConfig :=
  ⟨true, 1000, 10485760, ["compute", "storage"], []⟩

def mdW : AgentMetadata :=
  ⟨0, 0, "1.0.0", ⟨1, 1, 0, 0, 0⟩⟩

def accRunning : AgentAccount :=
  ⟨7, 3, "example-agent", cfgW, AgentState.running, 0, 1, mdW⟩

def accPausedW : AgentAccount :=
  { accRunning with state := AgentState.paused }

def accInitW : AgentAccount :=
  { accRunning with state := AgentState.initialized }

/-- Gateway double: submissions succeed, fetches return the paused snapshot. -/
def envOkW : ProgramEnv :=
  ⟨9, fun _ => Except.ok (), fun _ => Except.ok accPausedW⟩

/-- Gateway double: every submission fails with a transport error. -/
def envSendFailW : ProgramEnv :=
  ⟨9, fun _ => Except.error (SdkError.network "boom"), fun _ => Except.ok accPausedW⟩

/-- Gateway double: the fetched address has no backing account. -/
def envFetchNotFoundW : ProgramEnv :=
  ⟨9, fun _ => Except.ok (), fun _ => Except.error SdkError.notFound⟩

/-- Gateway double: fetches fail with a transport-class error. -/
def envFetchTransportW : ProgramEnv :=
  ⟨9, fun _ => Except.ok (), fun _ => Except.error (SdkError.network "connection reset")⟩

def patch2000 : ConfigPatch :=
  ⟨none, some 2000, none, none, none⟩

def accMergedW : AgentAccount :=
  { accRunning with config := mergeConfig accRunning.config patch2000 }

/-- Gateway double: submissions succeed and the fetch returns the snapshot
with the submitted (merged) configuration applied. -/
def envMergedW : ProgramEnv :=
  ⟨9, fun _ => Except.ok (), fun _ => Except.ok accMergedW⟩

/-- An operation that fails on attempt 1 and succeeds on attempt 2. -/
def opTransientW : Nat → Except String Nat :=
  fun i => if i ≤ 1 then Except.error "boom" else Except.ok 42

/-- An operation that fails on every attempt. -/
def opAlwaysFailW : Nat → Except String Nat :=
  fun _ => Except.error "down"

def policyW : RetryPolicy :=
  ⟨3, 1000, 10000, 2⟩

/-! ## Theorems -/

/-! Characterization lemmas: one equation per control-flow path of each
Agent method, used by the claim theorems below. -/

theorem refresh_fetch_err (env : ProgramEnv) (acc : AgentAccount) (e : SdkError)
    (h : env.getAgentAccount acc.publicKey = Except.error e) :
    Agent.refresh env acc =
      ⟨Except.error (SdkError.sonoma "Failed to refresh agent data" e), acc, [],
        [NetCall.fetch acc.publicKey]⟩ := by
  simp [Agent.refresh, h]

theorem refresh_fetch_ok (env : ProgramEnv) (acc a : AgentAccount)
    (h : env.getAgentAccount acc.publicKey = Except.ok a) :
    Agent.refresh env acc =
      ⟨Except.ok (), a,
        if acc.state ≠ a.state then [AgentEvent.stateChange acc.state a.state] else [],
        [NetCall.fetch acc.publicKey]⟩ := by
  simp [Agent.refresh, h]

theorem sendTx_err (env : ProgramEnv) (instr : Instruction) (e : SdkError)
    (h : env.sendTransaction instr = Except.error e) :
    Agent.sendTx env instr =
      (Except.error e, [AgentEvent.error e], [NetCall.send instr]) := by
  simp [Agent.sendTx, h]

theorem sendTx_ok (env : ProgramEnv) (instr : Instruction)
    (h : env.sendTransaction instr = Except.ok ()) :
    Agent.sendTx env instr = (Except.ok (), [], [NetCall.send instr]) := by
  simp [Agent.sendTx, h]

theorem updateConfig_send_err (env : ProgramEnv) (acc : AgentAccount) (p : ConfigPatch)
    (e : SdkError)
    (hs : env.sendTransaction (createUpdateInstruction acc.publicKey (mergeConfig acc.config p)) =
      Except.error e) :
    Agent.updateConfig env acc p =
      ⟨Except.error (SdkError.sonoma "Failed to update agent configuration" e), acc,
        [AgentEvent.error e],
        [NetCall.send (createUpdateInstruction acc.publicKey (mergeConfig acc.config p))]⟩ := by
  simp [Agent.updateConfig, Agent.sendTx, hs]

theorem updateConfig_fetch_err (env : ProgramEnv) (acc : AgentAccount) (p : ConfigPatch)
    (e : SdkError)
    (hs : env.sendTransaction (createUpdateInstruction acc.publicKey (mergeConfig acc.config p)) =
      Except.ok ())
    (hg : env.getAgentAccount acc.publicKey = Except.error e) :
    Agent.updateConfig env acc p =
      ⟨Except.error (SdkError.sonoma "Failed to update agent configuration"
          (SdkError.sonoma "Failed to refresh agent data" e)), acc, [],
        [NetCall.send (createUpdateInstruction acc.publicKey (mergeConfig acc.config p)),
          NetCall.fetch acc.publicKey]⟩ := by
  simp [Agent.updateConfig, Agent.sendTx, Agent.refresh, hs, hg]

theorem updateConfig_ok (env : ProgramEnv) (acc : AgentAccount) (p : ConfigPatch)
    (a : AgentAccount)
    (hs : env.sendTransaction (createUpdateInstruction acc.publicKey (mergeConfig acc.config p)) =
      Except.ok ())
    (hg : env.getAgentAccount acc.publicKey = Except.ok a) :
    Agent.updateConfig env acc p =
      ⟨Except.ok (), a,
        if acc.state ≠ a.state then [AgentEvent.stateChange acc.state a.state] else [],
        [NetCall.send (createUpdateInstruction acc.publicKey (mergeConfig acc.config p)),
          NetCall.fetch acc.publicKey]⟩ := by
  simp [Agent.updateConfig, Agent.sendTx, Agent.refresh, hs, hg]

theorem pause_guard_eq (env : ProgramEnv) (acc : AgentAccount)
    (h : acc.state ≠ AgentState.running) :
    Agent.pause env acc =
      ⟨Except.error (SdkError.sonomaNoCause "Agent must be running to pause"),
        acc, [], []⟩ := by
  simp [Agent.pause, h]

theorem pause_send_err (env : ProgramEnv) (acc : AgentAccount) (e : SdkError)
    (hst : acc.state = AgentState.running)
    (hs : env.sendTransaction (createPauseInstruction acc.publicKey) = Except.error e) :
    Agent.pause env acc =
      ⟨Except.error (SdkError.sonoma "Failed to pause agent" e), acc,
        [AgentEvent.error e], [NetCall.send (createPauseInstruction acc.publicKey)]⟩ := by
  simp [Agent.pause, Agent.sendTx, hst, hs]

theorem pause_fetch_err (env : ProgramEnv) (acc : AgentAccount) (e : SdkError)
    (hst : acc.state = AgentState.running)
    (hs : env.sendTransaction (createPauseInstruction acc.publicKey) = Except.ok ())
    (hg : env.getAgentAccount acc.publicKey = Except.error e) :
    Agent.pause env acc =
      ⟨Except.error (SdkError.sonoma "Failed to pause agent"
          (SdkError.sonoma "Failed to refresh agent data" e)), acc, [],
        [NetCall.send (createPauseInstruction acc.publicKey),
          NetCall.fetch acc.publicKey]⟩ := by
  simp [Agent.pause, Agent.sendTx, Agent.refresh, hst, hs, hg]

theorem pause_ok (env : ProgramEnv) (acc a : AgentAccount)
    (hst : acc.state = AgentState.running)
    (hs : env.sendTransaction (createPauseInstruction acc.publicKey) = Except.ok ())
    (hg : env.getAgentAccount acc.publicKey = Except.ok a) :
    Agent.pause env acc =
      ⟨Except.ok (), a,
        if acc.state ≠ a.state then [AgentEvent.stateChange acc.state a.state] else [],
        [NetCall.send (createPauseInstruction acc.publicKey),
          NetCall.fetch acc.publicKey]⟩ := by
  simp [Agent.pause, Agent.sendTx, Agent.refresh, hst, hs, hg]

theorem resume_guard_eq (env : ProgramEnv) (acc : AgentAccount)
    (h : acc.state ≠ AgentState.paused) :
    Agent.resume env acc =
      ⟨Except.error (SdkError.sonomaNoCause "Agent must be paused to resume"),
        acc, [], []⟩ := by
  simp [Agent.resume, h]

theorem resume_send_err (env : ProgramEnv) (acc : AgentAccount) (e : SdkError)
    (hst : acc.state = AgentState.paused)
    (hs : env.sendTransaction (createResumeInstruction acc.publicKey) = Except.error e) :
    Agent.resume env acc =
      ⟨Except.error (SdkError.sonoma "Failed to resume agent" e), acc,
        [AgentEvent.error e], [NetCall.send (createResumeInstruction acc.publicKey)]⟩ := by
  simp [Agent.resume, Agent.sendTx, hst, hs]

theorem resume_fetch_err (env : ProgramEnv) (acc : AgentAccount) (e : SdkError)
    (hst : acc.state = AgentState.paused)
    (hs : env.sendTransaction (createResumeInstruction acc.publicKey) = Except.ok ())
    (hg : env.getAgentAccount acc.publicKey = Except.error e) :
    Agent.resume env acc =
      ⟨Except.error (SdkError.sonoma "Failed to resume agent"
          (SdkError.sonoma "Failed to refresh agent data" e)), acc, [],
        [NetCall.send (createResumeInstruction acc.publicKey),
          NetCall.fetch acc.publicKey]⟩ := by
  simp [Agent.resume, Agent.sendTx, Agent.refresh, hst, hs, hg]

theorem resume_ok (env : ProgramEnv) (acc a : AgentAccount)
    (hst : acc.state = AgentState.paused)
    (hs : env.sendTransaction (createResumeInstruction acc.publicKey) = Except.ok ())
    (hg : env.getAgentAccount acc.publicKey = Except.ok a) :
    Agent.resume env acc =
      ⟨Except.ok (), a,
        if acc.state ≠ a.state then [AgentEvent.stateChange acc.state a.state] else [],
        [NetCall.send (createResumeInstruction acc.publicKey),
          NetCall.fetch acc.publicKey]⟩ := by
  simp [Agent.resume, Agent.sendTx, Agent.refresh, hst, hs, hg]

theorem execute_send_err (env : ProgramEnv) (acc : AgentAccount) (d : List Nat)
    (e : SdkError)
    (hs : env.sendTransaction (createExecuteInstruction acc.publicKey d) = Except.error e) :
    Agent.execute env acc d =
      ⟨Except.error (SdkError.sonoma "Failed to execute agent action" e), acc,
        [AgentEvent.error e, AgentEvent.executionErr e],
        [NetCall.send (createExecuteInstruction acc.publicKey d)]⟩ := by
  simp [Agent.execute, Agent.sendTx, hs]

theorem execute_send_ok (env : ProgramEnv) (acc : AgentAccount) (d : List Nat)
    (hs : env.sendTransaction (createExecuteInstruction acc.publicKey d) = Except.ok ()) :
    Agent.execute env acc d =
      ⟨Except.ok (), acc, [AgentEvent.executionOk d],
        [NetCall.send (createExecuteInstruction acc.publicKey d)]⟩ := by
  simp [Agent.execute, Agent.sendTx, hs]

/-- C1: `pause()` on a handle whose current lifecycle state is not `Running`
fails fast with the `InvalidStateTransition` guard error (the argument-free
`SonomaError` "Agent must be running to pause") and performs zero network
calls, leaving the snapshot untouched and emitting nothing; symmetrically,
`resume()` on a handle whose state is not `Paused` fails with the guard
error "Agent must be paused to resume" and performs zero network calls. -/
theorem pause_resume_guard_no_network (env : ProgramEnv) (acc : AgentAccount) :
    (acc.state ≠ AgentState.running →
      Agent.pause env acc =
        ⟨Except.error (SdkError.sonomaNoCause "Agent must be running to pause"),
          acc, [], []⟩) ∧
    (acc.state ≠ AgentState.paused →
      Agent.resume env acc =
        ⟨Except.error (SdkError.sonomaNoCause "Agent must be paused to resume"),
          acc, [], []⟩) := by
  constructor
  · intro h
    simp [Agent.pause, h]
  · intro h
    simp [Agent.resume, h]

/-- Witness for C1: a concrete handle in state `Initialized` rejects both
`pause()` and `resume()` without touching the network. -/
theorem pause_resume_guard_no_network_witness :
    Agent.pause envOkW accInitW =
      ⟨Except.error (SdkError.sonomaNoCause "Agent must be running to pause"),
        accInitW, [], []⟩ ∧
    Agent.resume envOkW accInitW =
      ⟨Except.error (SdkError.sonomaNoCause "Agent must be paused to resume"),
        accInitW, [], []⟩ :=
  ⟨(pause_resume_guard_no_network envOkW accInitW).1 (by decide),
   (pause_resume_guard_no_network envOkW accInitW).2 (by decide)⟩

/-- C2: when the fetch succeeds, a single `refresh()` call succeeds, makes
the freshly fetched snapshot current, and emits exactly one
`stateChange(old, new)` notification when the new snapshot's lifecycle
state differs from the previous one and zero notifications otherwise;
every emitted notification fires after the swap, so its new state is
exactly what `getState()` reads on the handle during delivery. -/
theorem refresh_state_change_exactly_once (env : ProgramEnv) (acc a : AgentAccount)
    (h : env.getAgentAccount acc.publicKey = Except.ok a) :
    (Agent.refresh env acc).result = Except.ok () ∧
    (Agent.refresh env acc).account = a ∧
    ((Agent.refresh env acc).events =
      if acc.state ≠ a.state then [AgentEvent.stateChange acc.state a.state] else []) ∧
    (∀ s s', AgentEvent.stateChange s s' ∈ (Agent.refresh env acc).events →
      s = acc.state ∧ s' = (Agent.refresh env acc).account.state ∧ s ≠ s') := by
  refine ⟨?_, ?_, ?_, ?_⟩
  · simp [Agent.refresh, h]
  · simp [Agent.refresh, h]
  · simp [Agent.refresh, h]
  · intro s s' hmem
    by_cases hs : acc.state = a.state
    · simp [Agent.refresh, h, hs] at hmem
    · simp [Agent.refresh, h, hs] at hmem
      refine ⟨hmem.1, ?_, ?_⟩
      · simp [Agent.refresh, h, hmem.2]
      · rw [hmem.1, hmem.2]; exact hs

/-- Witness for C2: refreshing a `Running` handle against a gateway that
returns a `Paused` snapshot swaps the snapshot and emits the single
`stateChange(Running, Paused)` notification. -/
theorem refresh_state_change_exactly_once_witness :
    (Agent.refresh envOkW accRunning).account = accPausedW ∧
    (Agent.refresh envOkW accRunning).events =
      [AgentEvent.stateChange AgentState.running AgentState.paused] :=
  ⟨(refresh_state_change_exactly_once envOkW accRunning accPausedW rfl).2.1, by
    have h := (refresh_state_change_exactly_once envOkW accRunning accPausedW rfl).2.2.1
    simpa using h⟩

/-- C8 counterexample: `load` on an address with no backing account does not
fail with the `NotFound` error itself — it fails with the same top-level
`SonomaError` "Failed to load agent" that a transport failure produces, the
two being told apart only by the wrapped cause. -/
theorem load_counterexample :
    Agent.load envFetchNotFoundW 5 =
      (Except.error (SdkError.sonoma "Failed to load agent" SdkError.notFound),
        [NetCall.fetch 5]) ∧
    Agent.load envFetchTransportW 5 =
      (Except.error (SdkError.sonoma "Failed to load agent" (SdkError.network "connection reset")),
        [NetCall.fetch 5]) ∧
    (Agent.load envFetchNotFoundW 5).1 ≠ Except.error SdkError.notFound := by
  refine ⟨rfl, rfl, ?_⟩
  intro h
  simp [Agent.load, envFetchNotFoundW] at h

/-- C8 as amended: whatever the cause of the fetch failure — `NotFound` for
a missing account or a transport-class error — `load(address)` fails with
`SonomaError` "Failed to load agent" wrapping that cause, so the two failure
classes are distinguishable only through the preserved cause. -/
theorem load_wraps_cause (env : ProgramEnv) (addr : Nat) (e : SdkError)
    (h : env.getAgentAccount addr = Except.error e) :
    Agent.load env addr =
      (Except.error (SdkError.sonoma "Failed to load agent" e), [NetCall.fetch addr]) := by
  simp [Agent.load, h]

/-- Witness for the amended C8: the missing-account cause is preserved
inside the wrapper. -/
theorem load_wraps_cause_witness :
    Agent.load envFetchNotFoundW 5 =
      (Except.error (SdkError.sonoma "Failed to load agent" SdkError.notFound),
        [NetCall.fetch 5]) :=
  load_wraps_cause envFetchNotFoundW 5 SdkError.notFound rfl

/-- C9: `validateConfig` deep-merges the input over `DEFAULT_CONFIG` one
top-level section at a time: within each of `network`, `agent`, `program`
and `settings`, every option present in the input overrides the documented
default and every absent option takes the documented default; in particular
the all-absent input yields exactly `DEFAULT_CONFIG`. -/
theorem validateConfig_merges_defaults (p : SonomaConfigPatch) :
    (validateConfig p).network.endpoint = p.network.endpoint.getD DEFAULT_CONFIG.network.endpoint ∧
    (validateConfig p).network.wsEndpoint =
      (p.network.wsEndpoint.orElse fun _ => DEFAULT_CONFIG.network.wsEndpoint) ∧
    (validateConfig p).network.commitment = p.network.commitment.getD DEFAULT_CONFIG.network.commitment ∧
    (validateConfig p).network.timeout = p.network.timeout.getD DEFAULT_CONFIG.network.timeout ∧
    (validateConfig p).network.maxRetries = p.network.maxRetries.getD DEFAULT_CONFIG.network.maxRetries ∧
    (validateConfig p).agent.executionLimit = p.agent.executionLimit.getD DEFAULT_CONFIG.agent.executionLimit ∧
    (validateConfig p).agent.memoryLimit = p.agent.memoryLimit.getD DEFAULT_CONFIG.agent.memoryLimit ∧
    (validateConfig p).agent.defaultCapabilities =
      p.agent.defaultCapabilities.getD DEFAULT_CONFIG.agent.defaultCapabilities ∧
    (validateConfig p).agent.retry = p.agent.retry.getD DEFAULT_CONFIG.agent.retry ∧
    (validateConfig p).agent.performance = p.agent.performance.getD DEFAULT_CONFIG.agent.performance ∧
    (validateConfig p).program.programId = p.program.programId.getD DEFAULT_CONFIG.program.programId ∧
    (validateConfig p).program.computeBudget = p.program.computeBudget.getD DEFAULT_CONFIG.program.computeBudget ∧
    (validateConfig p).program.prefetchAccounts =
      p.program.prefetchAccounts.getD DEFAULT_CONFIG.program.prefetchAccounts ∧
    (validateConfig p).program.batchSize = p.program.batchSize.getD DEFAULT_CONFIG.program.batchSize ∧
    (validateConfig p).settings.logLevel = p.settings.logLevel.getD DEFAULT_CONFIG.settings.logLevel ∧
    (validateConfig p).settings.debug = p.settings.debug.getD DEFAULT_CONFIG.settings.debug ∧
    (validateConfig p).settings.telemetry = p.settings.telemetry.getD DEFAULT_CONFIG.settings.telemetry ∧
    (validateConfig p).settings.cache = p.settings.cache.getD DEFAULT_CONFIG.settings.cache ∧
    validateConfig emptyPatch = DEFAULT_CONFIG := by
  refine ⟨rfl, rfl, rfl, rfl, rfl, rfl, rfl, rfl, rfl, rfl, rfl, rfl, rfl, rfl, rfl, rfl,
    rfl, rfl, ?_⟩
  rfl

/-- C7: a create request with an empty name, or with a zero-or-negative
execution-count ceiling or memory ceiling, is rejected: the Command Builder
fails with `InvalidParameters` before any command exists, `create` wraps it
per its catch block, and the network-call trace is empty. -/
theorem create_rejects_malformed_input (env : ProgramEnv) (name : String)
    (config : AgentConfig) :
    (name = "" →
      Agent.create env name config =
        (Except.error (SdkError.sonoma "Failed to create agent" SdkError.invalidParameters),
          [])) ∧
    (config.executionLimit ≤ 0 →
      Agent.create env name config =
        (Except.error (SdkError.sonoma "Failed to create agent" SdkError.invalidParameters),
          [])) ∧
    (config.memoryLimit ≤ 0 →
      Agent.create env name config =
        (Except.error (SdkError.sonoma "Failed to create agent" SdkError.invalidParameters),
          [])) := by
  refine ⟨?_, ?_, ?_⟩
  · intro h
    simp [Agent.create, createInitializeInstruction, h]
  · intro h
    by_cases hn : name = ""
    · simp [Agent.create, createInitializeInstruction, hn]
    · simp [Agent.create, createInitializeInstruction, hn, h]
  · intro h
    by_cases hn : name = ""
    · simp [Agent.create, createInitializeInstruction, hn]
    · by_cases he : config.executionLimit ≤ 0
      · simp [Agent.create, createInitializeInstruction, hn, he]
      · simp [Agent.create, createInitializeInstruction, hn, he, h]

/-- Witness for C7: an empty name, a zero execution ceiling and a negative
memory ceiling are each rejected without a network call. -/
theorem create_rejects_malformed_input_witness :
    Agent.create envOkW "" cfgW =
      (Except.error (SdkError.sonoma "Failed to create agent" SdkError.invalidParameters),
        []) ∧
    Agent.create envOkW "a" { cfgW with executionLimit := 0 } =
      (Except.error (SdkError.sonoma "Failed to create agent" SdkError.invalidParameters),
        []) ∧
    Agent.create envOkW "a" { cfgW with memoryLimit := -5 } =
      (Except.error (SdkError.sonoma "Failed to create agent" SdkError.invalidParameters),
        []) :=
  ⟨(create_rejects_malformed_input envOkW "" cfgW).1 rfl,
   (create_rejects_malformed_input envOkW "a" { cfgW with executionLimit := 0 }).2.1
     (by decide),
   (create_rejects_malformed_input envOkW "a" { cfgW with memoryLimit := -5 }).2.2
     (by decide)⟩

/-- C3 counterexample: a successful `execute()` performs a single command
submission and no account fetch at all — the operation does not end with a
re-fetch of the remote snapshot, and the local snapshot is left at its
pre-call value. -/
theorem execute_no_refetch_counterexample :
    (Agent.execute envOkW accRunning [1, 2]).result = Except.ok () ∧
    (Agent.execute envOkW accRunning [1, 2]).calls =
      [NetCall.send (Instruction.execute 7 [1, 2])] ∧
    (Agent.execute envOkW accRunning [1, 2]).calls.getLast? ≠
      some (NetCall.fetch accRunning.publicKey) ∧
    NetCall.fetch accRunning.publicKey ∉ (Agent.execute envOkW accRunning [1, 2]).calls ∧
    (Agent.execute envOkW accRunning [1, 2]).account = accRunning := by
  refine ⟨rfl, rfl, by decide, by decide, rfl⟩

/-- C3 as amended: `updateConfig`, `pause` and `resume` end, on success,
with an explicit re-fetch whose result becomes the current snapshot (the
fetch is the last network call); `execute` performs no re-fetch and leaves
the local snapshot unchanged; and no operation ever assigns the local
snapshot a predicted value — after any of them, the snapshot is either the
pre-call one or exactly what the gateway fetch returned. -/
theorem mutating_operations_refetch_policy :
    (∀ env acc p, (Agent.updateConfig env acc p).result = Except.ok () →
      ∃ a, env.getAgentAccount acc.publicKey = Except.ok a ∧
        (Agent.updateConfig env acc p).account = a ∧
        (Agent.updateConfig env acc p).calls =
          [NetCall.send (createUpdateInstruction acc.publicKey (mergeConfig acc.config p)),
            NetCall.fetch acc.publicKey]) ∧
    (∀ env acc, (Agent.pause env acc).result = Except.ok () →
      ∃ a, env.getAgentAccount acc.publicKey = Except.ok a ∧
        (Agent.pause env acc).account = a ∧
        (Agent.pause env acc).calls =
          [NetCall.send (createPauseInstruction acc.publicKey),
            NetCall.fetch acc.publicKey]) ∧
    (∀ env acc, (Agent.resume env acc).result = Except.ok () →
      ∃ a, env.getAgentAccount acc.publicKey = Except.ok a ∧
        (Agent.resume env acc).account = a ∧
        (Agent.resume env acc).calls =
          [NetCall.send (createResumeInstruction acc.publicKey),
            NetCall.fetch acc.publicKey]) ∧
    (∀ env acc d, (Agent.execute env acc d).account = acc ∧
      (∀ pk, NetCall.fetch pk ∉ (Agent.execute env acc d).calls)) ∧
    (∀ env acc p, (Agent.updateConfig env acc p).account = acc ∨
      env.getAgentAccount acc.publicKey =
        Except.ok ((Agent.updateConfig env acc p).account)) ∧
    (∀ env acc, (Agent.pause env acc).account = acc ∨
      env.getAgentAccount acc.publicKey = Except.ok ((Agent.pause env acc).account)) ∧
    (∀ env acc, (Agent.resume env acc).account = acc ∨
      env.getAgentAccount acc.publicKey = Except.ok ((Agent.resume env acc).account)) ∧
    (∀ env acc, (Agent.refresh env acc).account = acc ∨
      env.getAgentAccount acc.publicKey = Except.ok ((Agent.refresh env acc).account)) := by
  refine ⟨?_, ?_, ?_, ?_, ?_, ?_, ?_, ?_⟩
  · intro env acc p h
    rcases hs : env.sendTransaction (createUpdateInstruction acc.publicKey (mergeConfig acc.config p)) with e | u
    · rw [updateConfig_send_err env acc p e hs] at h
      exact absurd h (by simp)
    · cases u
      rcases hg : env.getAgentAccount acc.publicKey with e | a
      · rw [updateConfig_fetch_err env acc p e hs hg] at h
        exact absurd h (by simp)
      · exact ⟨a, rfl, by rw [updateConfig_ok env acc p a hs hg],
          by rw [updateConfig_ok env acc p a hs hg]⟩
  · intro env acc h
    by_cases hst : acc.state = AgentState.running
    · rcases hs : env.sendTransaction (createPauseInstruction acc.publicKey) with e | u
      · rw [pause_send_err env acc e hst hs] at h
        exact absurd h (by simp)
      · cases u
        rcases hg : env.getAgentAccount acc.publicKey with e | a
        · rw [pause_fetch_err env acc e hst hs hg] at h
          exact absurd h (by simp)
        · exact ⟨a, rfl, by rw [pause_ok env acc a hst hs hg],
            by rw [pause_ok env acc a hst hs hg]⟩
    · rw [pause_guard_eq env acc hst] at h
      exact absurd h (by simp)
  · intro env acc h
    by_cases hst : acc.state = AgentState.paused
    · rcases hs : env.sendTransaction (createResumeInstruction acc.publicKey) with e | u
      · rw [resume_send_err env acc e hst hs] at h
        exact absurd h (by simp)
      · cases u
        rcases hg : env.getAgentAccount acc.publicKey with e | a
        · rw [resume_fetch_err env acc e hst hs hg] at h
          exact absurd h (by simp)
        · exact ⟨a, rfl, by rw [resume_ok env acc a hst hs hg],
            by rw [resume_ok env acc a hst hs hg]⟩
    · rw [resume_guard_eq env acc hst] at h
      exact absurd h (by simp)
  · intro env acc d
    rcases hs : env.sendTransaction (createExecuteInstruction acc.publicKey d) with e | u
    · rw [execute_send_err env acc d e hs]
      exact ⟨rfl, by intro pk hmem; simp at hmem⟩
    · cases u
      rw [execute_send_ok env acc d hs]
      exact ⟨rfl, by intro pk hmem; simp at hmem⟩
  · intro env acc p
    rcases hs : env.sendTransaction (createUpdateInstruction acc.publicKey (mergeConfig acc.config p)) with e | u
    · rw [updateConfig_send_err env acc p e hs]
      exact Or.inl rfl
    · cases u
      rcases hg : env.getAgentAccount acc.publicKey with e | a
      · rw [updateConfig_fetch_err env acc p e hs hg]
        exact Or.inl rfl
      · rw [updateConfig_ok env acc p a hs hg]
        exact Or.inr rfl
  · intro env acc
    by_cases hst : acc.state = AgentState.running
    · rcases hs : env.sendTransaction (createPauseInstruction acc.publicKey) with e | u
      · rw [pause_send_err env acc e hst hs]
        exact Or.inl rfl
      · cases u
        rcases hg : env.getAgentAccount acc.publicKey with e | a
        · rw [pause_fetch_err env acc e hst hs hg]
          exact Or.inl rfl
        · rw [pause_ok env acc a hst hs hg]
          exact Or.inr rfl
    · rw [pause_guard_eq env acc hst]
      exact Or.inl rfl
  · intro env acc
    by_cases hst : acc.state = AgentState.paused
    · rcases hs : env.sendTransaction (createResumeInstruction acc.publicKey) with e | u
      · rw [resume_send_err env acc e hst hs]
        exact Or.inl rfl
      · cases u
        rcases hg : env.getAgentAccount acc.publicKey with e | a
        · rw [resume_fetch_err env acc e hst hs hg]
          exact Or.inl rfl
        · rw [resume_ok env acc a hst hs hg]
          exact Or.inr rfl
    · rw [resume_guard_eq env acc hst]
      exact Or.inl rfl
  · intro env acc
    rcases hg : env.getAgentAccount acc.publicKey with e | a
    · rw [refresh_fetch_err env acc e hg]
      exact Or.inl rfl
    · rw [refresh_fetch_ok env acc a hg]
      exact Or.inr rfl

/-- Witness for the amended C3: on the all-success gateway double, a
successful `updateConfig` swaps in the fetched snapshot with the fetch as
its final network call, while a successful `execute` leaves the snapshot
at its pre-call value. -/
theorem mutating_operations_refetch_policy_witness :
    (Agent.updateConfig envOkW accRunning patch2000).account = accPausedW ∧
    (Agent.execute envOkW accRunning [1]).account = accRunning := by
  have h1 := mutating_operations_refetch_policy.1 envOkW accRunning patch2000 rfl
  have h2 := (mutating_operations_refetch_policy.2.2.2.1 envOkW accRunning [1]).1
  refine ⟨?_, h2⟩
  rcases h1 with ⟨a, hg, hacc, _⟩
  have ha : a = accPausedW := by
    have hg' : (Except.ok a : Except SdkError AgentAccount) = Except.ok accPausedW := by
      rw [← hg]
      rfl
    exact Except.ok.inj hg'
  rw [hacc, ha]

/-- C4: whenever a mutating operation (`updateConfig`, `pause`, `resume`,
`execute`) fails — guard violation, rejected submission, or failed
confirming fetch — the handle's current snapshot after the failure is
exactly the snapshot it held before the operation: never a partial
update. -/
theorem failed_mutation_preserves_snapshot :
    (∀ env acc p e, (Agent.updateConfig env acc p).result = Except.error e →
      (Agent.updateConfig env acc p).account = acc) ∧
    (∀ env acc e, (Agent.pause env acc).result = Except.error e →
      (Agent.pause env acc).account = acc) ∧
    (∀ env acc e, (Agent.resume env acc).result = Except.error e →
      (Agent.resume env acc).account = acc) ∧
    (∀ env acc d e, (Agent.execute env acc d).result = Except.error e →
      (Agent.execute env acc d).account = acc) := by
  refine ⟨?_, ?_, ?_, ?_⟩
  · intro env acc p e h
    rcases hs : env.sendTransaction (createUpdateInstruction acc.publicKey (mergeConfig acc.config p)) with e' | u
    · rw [updateConfig_send_err env acc p e' hs]
    · cases u
      rcases hg : env.getAgentAccount acc.publicKey with e' | a
      · rw [updateConfig_fetch_err env acc p e' hs hg]
      · rw [updateConfig_ok env acc p a hs hg] at h
        exact absurd h (by simp)
  · intro env acc e h
    by_cases hst : acc.state = AgentState.running
    · rcases hs : env.sendTransaction (createPauseInstruction acc.publicKey) with e' | u
      · rw [pause_send_err env acc e' hst hs]
      · cases u
        rcases hg : env.getAgentAccount acc.publicKey with e' | a
        · rw [pause_fetch_err env acc e' hst hs hg]
        · rw [pause_ok env acc a hst hs hg] at h
          exact absurd h (by simp)
    · rw [pause_guard_eq env acc hst]
  · intro env acc e h
    by_cases hst : acc.state = AgentState.paused
    · rcases hs : env.sendTransaction (createResumeInstruction acc.publicKey) with e' | u
      · rw [resume_send_err env acc e' hst hs]
      · cases u
        rcases hg : env.getAgentAccount acc.publicKey with e' | a
        · rw [resume_fetch_err env acc e' hst hs hg]
        · rw [resume_ok env acc a hst hs hg] at h
          exact absurd h (by simp)
    · rw [resume_guard_eq env acc hst]
  · intro env acc d e h
    rcases hs : env.sendTransaction (createExecuteInstruction acc.publicKey d) with e' | u
    · rw [execute_send_err env acc d e' hs]
    · cases u
      rw [execute_send_ok env acc d hs] at h
      exact absurd h (by simp)

/-- Witness for C4: against a gateway double whose submissions all fail,
`updateConfig` and `pause` fail and leave the snapshot untouched. -/
theorem failed_mutation_preserves_snapshot_witness :
    (Agent.updateConfig envSendFailW accRunning patch2000).account = accRunning ∧
    (Agent.pause envSendFailW accRunning).account = accRunning :=
  ⟨failed_mutation_preserves_snapshot.1 envSendFailW accRunning patch2000
      (SdkError.sonoma "Failed to update agent configuration" (SdkError.network "boom")) rfl,
   failed_mutation_preserves_snapshot.2.1 envSendFailW accRunning
      (SdkError.sonoma "Failed to pause agent" (SdkError.network "boom")) rfl⟩

/-- C5: `updateConfig(partial)` submits the full post-merge configuration —
its first (and only) submission carries `mergeConfig` of the current
configuration with the partial, in which every field named in the partial
takes the partial's value and every unspecified field retains its prior
value; and when the submission succeeds and the confirming fetch returns a
snapshot carrying the submitted configuration, the handle's configuration
after the call is exactly that merge. -/
theorem updateConfig_submits_merged_config :
    (∀ (c : AgentConfig) (p : ConfigPatch),
      (mergeConfig c p).autonomousMode = p.autonomousMode.getD c.autonomousMode ∧
      (mergeConfig c p).executionLimit = p.executionLimit.getD c.executionLimit ∧
      (mergeConfig c p).memoryLimit = p.memoryLimit.getD c.memoryLimit ∧
      (mergeConfig c p).capabilities = p.capabilities.getD c.capabilities ∧
      (mergeConfig c p).metadata = p.metadata.getD c.metadata) ∧
    (∀ env acc p, (Agent.updateConfig env acc p).calls.head? =
      some (NetCall.send (Instruction.update acc.publicKey (mergeConfig acc.config p)))) ∧
    (∀ env acc p a,
      env.sendTransaction (createUpdateInstruction acc.publicKey (mergeConfig acc.config p)) =
        Except.ok () →
      env.getAgentAccount acc.publicKey = Except.ok a →
      a.config = mergeConfig acc.config p →
      (Agent.updateConfig env acc p).result = Except.ok () ∧
      (Agent.updateConfig env acc p).account.config = mergeConfig acc.config p) := by
  refine ⟨fun c p => ⟨rfl, rfl, rfl, rfl, rfl⟩, ?_, ?_⟩
  · intro env acc p
    rcases hs : env.sendTransaction (createUpdateInstruction acc.publicKey (mergeConfig acc.config p)) with e | u
    · rw [updateConfig_send_err env acc p e hs]
      rfl
    · cases u
      rcases hg : env.getAgentAccount acc.publicKey with e | a
      · rw [updateConfig_fetch_err env acc p e hs hg]
        rfl
      · rw [updateConfig_ok env acc p a hs hg]
        rfl
  · intro env acc p a hs hg hconf
    rw [updateConfig_ok env acc p a hs hg]
    exact ⟨rfl, hconf⟩

/-- Witness for C5: `updateConfig(\x7bexecutionLimit: 2000\x7d)` against a
gateway double that applies the submitted configuration yields
`executionLimit = 2000` with every other field at its pre-update value. -/
theorem updateConfig_submits_merged_config_witness :
    (Agent.updateConfig envMergedW accRunning patch2000).result = Except.ok () ∧
    (Agent.updateConfig envMergedW accRunning patch2000).account.config.executionLimit = 2000 ∧
    (Agent.updateConfig envMergedW accRunning patch2000).account.config.memoryLimit = 10485760 ∧
    (Agent.updateConfig envMergedW accRunning patch2000).account.config.autonomousMode = true ∧
    (Agent.updateConfig envMergedW accRunning patch2000).account.config.capabilities =
      ["compute", "storage"] := by
  have h := updateConfig_submits_merged_config.2.2 envMergedW accRunning patch2000
    accMergedW rfl rfl rfl
  refine ⟨h.1, ?_, ?_, ?_, ?_⟩ <;> rw [h.2] <;> rfl

/-- C10: when the transaction-submission step of a mutating operation
fails, the private `sendTransaction` emits an `error` notification carrying
the causing error before rethrowing, so the operation's event trace starts
with `error(cause)` while the wrapped failure propagates to the caller; for
`execute` the trace is exactly `error(cause)` then
`execution(success=false, cause)` for the same failure. -/
theorem send_failure_emits_error_event :
    (∀ env acc p e,
      env.sendTransaction (createUpdateInstruction acc.publicKey (mergeConfig acc.config p)) =
        Except.error e →
      (Agent.updateConfig env acc p).events = [AgentEvent.error e] ∧
      (Agent.updateConfig env acc p).result =
        Except.error (SdkError.sonoma "Failed to update agent configuration" e)) ∧
    (∀ env acc e, acc.state = AgentState.running →
      env.sendTransaction (createPauseInstruction acc.publicKey) = Except.error e →
      (Agent.pause env acc).events = [AgentEvent.error e] ∧
      (Agent.pause env acc).result =
        Except.error (SdkError.sonoma "Failed to pause agent" e)) ∧
    (∀ env acc e, acc.state = AgentState.paused →
      env.sendTransaction (createResumeInstruction acc.publicKey) = Except.error e →
      (Agent.resume env acc).events = [AgentEvent.error e] ∧
      (Agent.resume env acc).result =
        Except.error (SdkError.sonoma "Failed to resume agent" e)) ∧
    (∀ env acc d e,
      env.sendTransaction (createExecuteInstruction acc.publicKey d) = Except.error e →
      (Agent.execute env acc d).events = [AgentEvent.error e, AgentEvent.executionErr e] ∧
      (Agent.execute env acc d).result =
        Except.error (SdkError.sonoma "Failed to execute agent action" e)) := by
  refine ⟨?_, ?_, ?_, ?_⟩
  · intro env acc p e hs
    rw [updateConfig_send_err env acc p e hs]
    exact ⟨rfl, rfl⟩
  · intro env acc e hst hs
    rw [pause_send_err env acc e hst hs]
    exact ⟨rfl, rfl⟩
  · intro env acc e hst hs
    rw [resume_send_err env acc e hst hs]
    exact ⟨rfl, rfl⟩
  · intro env acc d e hs
    rw [execute_send_err env acc d e hs]
    exact ⟨rfl, rfl⟩

/-- Witness for C10: against the failing-submission gateway double, a
failed `execute` emits the `error` notification followed by the
`execution(success=false)` notification for the same transport failure. -/
theorem send_failure_emits_error_event_witness :
    (Agent.execute envSendFailW accRunning [1]).events =
      [AgentEvent.error (SdkError.network "boom"),
        AgentEvent.executionErr (SdkError.network "boom")] ∧
    (Agent.pause envSendFailW accRunning).events =
      [AgentEvent.error (SdkError.network "boom")] :=
  ⟨(send_failure_emits_error_event.2.2.2 envSendFailW accRunning [1]
      (SdkError.network "boom") rfl).1,
   (send_failure_emits_error_event.2.1 envSendFailW accRunning
      (SdkError.network "boom") rfl rfl).1⟩

/-- Attempt-count bookkeeping of the retry loop: if attempts `i .. i+t-1`
fail and attempt `i+t` succeeds, with `t` within the remaining budget `r`,
the loop returns the success value after exactly `t + 1` attempts. -/
theorem retryFrom_succeeds {E A : Type} (op : Nat → Except E A) (v : A) :
    ∀ (t r i : Nat), t ≤ r →
      (∀ j, j < t → ∃ e, op (i + j) = Except.error e) →
      op (i + t) = Except.ok v →
      retryFrom op i r = (Except.ok v, t + 1) := by
  intro t
  induction t with
  | zero =>
    intro r i _ _ hok
    rw [Nat.add_zero] at hok
    simp [retryFrom, hok]
  | succ s ih =>
    intro r i hle hfail hok
    obtain ⟨e0, h0⟩ := hfail 0 (Nat.succ_pos s)
    rw [Nat.add_zero] at h0
    cases r with
    | zero => omega
    | succ r' =>
      have hrec := ih r' (i + 1) (by omega)
        (fun j hj => by
          obtain ⟨e', h'⟩ := hfail (j + 1) (by omega)
          exact ⟨e', by rw [show i + 1 + j = i + (j + 1) by omega]; exact h'⟩)
        (by rw [show i + 1 + s = i + (s + 1) by omega]; exact hok)
      simp [retryFrom, h0, hrec]

/-- Attempt-count bookkeeping of the retry loop: if every attempt from `i`
through `i + r` fails, the loop performs all `r + 1` attempts and returns
the last failure wrapped with the index of the final attempt. -/
theorem retryFrom_exhausts {E A : Type} (op : Nat → Except E A) (e : Nat → E) :
    ∀ (r i : Nat), (∀ j, j ≤ r → op (i + j) = Except.error (e (i + j))) →
      retryFrom op i r = (Except.error (e (i + r), i + r), r + 1) := by
  intro r
  induction r with
  | zero =>
    intro i hfail
    have h0 := hfail 0 (Nat.le_refl 0)
    rw [Nat.add_zero] at h0 ⊢
    simp [retryFrom, h0]
  | succ r' ih =>
    intro i hfail
    have h0 := hfail 0 (Nat.zero_le _)
    rw [Nat.add_zero] at h0
    have hrec := ih (i + 1) (fun j hj => by
      have h' := hfail (j + 1) (by omega)
      rw [show i + 1 + j = i + (j + 1) by omega]
      exact h')
    rw [show i + 1 + r' = i + (r' + 1) by omega] at hrec
    simp [retryFrom, h0, hrec]

/-- C6: for every retry policy with `maxAttempts ≥ 1` and every wrapped
operation, if the operation fails on attempts `1 .. k` with `k <
maxAttempts` and succeeds on attempt `k + 1`, the Retry Executor returns
the success value after exactly `k + 1` attempts; and if the operation
fails on every attempt, the executor performs exactly `maxAttempts`
attempts and propagates the final failure wrapped with the attempt count. -/
theorem retry_attempt_count_spec :
    (∀ (E A : Type) (op : Nat → Except E A) (policy : RetryPolicy) (k : Nat) (v : A),
      1 ≤ policy.maxAttempts → k < policy.maxAttempts →
      (∀ j, 1 ≤ j → j ≤ k → ∃ e, op j = Except.error e) →
      op (k + 1) = Except.ok v →
      retry op policy = (Except.ok v, k + 1)) ∧
    (∀ (E A : Type) (op : Nat → Except E A) (policy : RetryPolicy) (e : Nat → E),
      1 ≤ policy.maxAttempts →
      (∀ j, op j = Except.error (e j)) →
      retry op policy =
        (Except.error (e policy.maxAttempts, policy.maxAttempts),
          policy.maxAttempts)) := by
  constructor
  · intro E A op policy k v hm hk hfail hok
    unfold retry
    exact retryFrom_succeeds op v k (policy.maxAttempts - 1) 1 (by omega)
      (fun j hj => by
        obtain ⟨e', h'⟩ := hfail (j + 1) (by omega) (by omega)
        exact ⟨e', by rw [show 1 + j = j + 1 by omega]; exact h'⟩)
      (by rw [show 1 + k = k + 1 by omega]; exact hok)
  · intro E A op policy e hm hfail
    unfold retry
    have h := retryFrom_exhausts op e (policy.maxAttempts - 1) 1
      (fun j _ => hfail (1 + j))
    rw [show 1 + (policy.maxAttempts - 1) = policy.maxAttempts by omega] at h
    rw [h, show policy.maxAttempts - 1 + 1 = policy.maxAttempts by omega]

/-- Witness for C6: an operation failing once then succeeding returns the
value after 2 of the 3 allowed attempts; an always-failing operation is
attempted exactly 3 times and the last failure carries the attempt count. -/
theorem retry_attempt_count_spec_witness :
    retry opTransientW policyW = (Except.ok 42, 2) ∧
    retry opAlwaysFailW policyW = (Except.error ("down", 3), 3) :=
  ⟨retry_attempt_count_spec.1 String Nat opTransientW policyW 1 42 (by decide) (by decide)
      (fun j h1 h2 => ⟨"boom", by
        have hj : j = 1 := Nat.le_antisymm h2 h1
        rw [hj]
        rfl⟩)
      rfl,
   retry_attempt_count_spec.2 String Nat opAlwaysFailW policyW (fun _ => "down")
      (by decide) (fun _ => rfl)⟩

end Sonoma
